import Mathlib

/-!
Shallow embedding of the SendGrid MCP server's core translation layer
(`src/client.ts`, the tool handlers, and the response formatter contracts),
together with theorems settling the specification claims about it.

JavaScript runtime values are modelled explicitly: `undefined` is `Option.none`,
JSON values are the `Json` inductive, JS truthiness and `parseInt` semantics are
given as executable functions.  Each client operation is modelled as a function
from the upstream HTTP response it consumes to the outcome observed by its
caller.
-/

namespace SendGrid

/-- Parsed JSON value, as produced by `JSON.parse`.  JSON numbers are modelled
as integers (no claim depends on non-integral numerics). -/
inductive Json where
  | null
  | bool (b : Bool)
  | num (n : Int)
  | str (s : String)
  | arr (elems : List Json)
  | obj (fields : List (String × Json))

/-- JavaScript truthiness of a JSON value: `null`, `false`, `0` and `""` are
falsy; arrays and objects are always truthy. -/
def Json.truthy : Json → Bool
  | .null => false
  | .bool b => b
  | .num n => n != 0
  | .str s => s != ""
  | .arr _ => true
  | .obj _ => true

/-- Whether a JSON value is `null`. -/
def Json.isNull : Json → Bool
  | .null => true
  | _ => false

/-- First binding of a key in an object's field list. -/
def lookupField : List (String × Json) → String → Option Json
  | [], _ => none
  | (k, v) :: rest, key => if k = key then some v else lookupField rest key

/-- JavaScript property access `x.key`: defined (as `undefined`, i.e. `none`)
on every non-object value.  Access on `null`/`undefined` throws in JS; the
call sites below model that throw explicitly where the code performs it
unguarded. -/
def Json.field : Json → String → Option Json
  | .obj fs, key => lookupField fs key
  | _, _ => none

/-- Optional-chaining field access `x?.key` on a possibly-undefined value. -/
def optField (v : Option Json) (key : String) : Option Json :=
  match v with
  | some j => j.field key
  | none => none

mutual
/-- The string an array element contributes to `Array.prototype.join`:
`undefined`/`null` become the empty string, otherwise JS `String(v)`
conversion applies (`[object Object]` for plain objects, comma-join for
arrays).  Also used for JS string conversion of truthy values. -/
def Json.jsElemString : Json → String
  | .null => ""
  | .bool b => cond b "true" "false"
  | .num n => toString n
  | .str s => s
  | .arr l => String.intercalate "," (jsElemStringList l)
  | .obj _ => "[object Object]"

/-- Element-wise rendering of a list of JSON values for `join`. -/
def jsElemStringList : List Json → List String
  | [] => []
  | x :: xs => x.jsElemString :: jsElemStringList xs
end

/-- Whitespace characters skipped by JavaScript `parseInt`. -/
def jsWhitespace (c : Char) : Bool :=
  c = ' ' || c = '\t' || c = '\n' || c = '\r' || c = '\x0b' || c = '\x0c'

/-- Value of the maximal decimal-digit run at the head of the character list,
or `none` when there is no digit (JS `NaN`). -/
def digitsPrefixVal (cs : List Char) : Option Nat :=
  let ds := cs.takeWhile Char.isDigit
  if ds.isEmpty then none
  else some (ds.foldl (fun a c => a * 10 + (c.toNat - 48)) 0)

/-- JavaScript `parseInt(s, 10)`: skip leading whitespace, optional sign,
then the maximal digit run; `none` models `NaN`. -/
def jsParseInt (s : String) : Option Int :=
  let cs := s.toList.dropWhile jsWhitespace
  if cs.head? = some '-' then (digitsPrefixVal cs.tail).map (fun n => -(n : Int))
  else if cs.head? = some '+' then (digitsPrefixVal cs.tail).map (fun n => (n : Int))
  else (digitsPrefixVal cs).map (fun n => (n : Int))

/-- Uppercase hexadecimal digit for a value below 16. -/
def hexDigit (n : Nat) : Char :=
  if n < 10 then Char.ofNat (48 + n) else Char.ofNat (55 + n)

/-- Escape of one character inside a JSON string literal, as produced by
`JSON.stringify`. -/
def jsonEscapeChar (c : Char) : String :=
  if c = '"' then "\\\""
  else if c = '\\' then "\\\\"
  else if c = '\n' then "\\n"
  else if c = '\r' then "\\r"
  else if c = '\t' then "\\t"
  else if c = '\x08' then "\\b"
  else if c = '\x0c' then "\\f"
  else if c.toNat < 32 then
    "\\u00" ++ String.mk [hexDigit (c.toNat / 16), hexDigit (c.toNat % 16)]
  else String.singleton c

/-- Escape of a whole string for a JSON string literal. -/
def jsonEscape (s : String) : String :=
  String.join (s.toList.map jsonEscapeChar)

/-- Indentation of `n` spaces. -/
def sp (n : Nat) : String :=
  String.mk (List.replicate n ' ')

mutual
/-- Pretty serialization matching `JSON.stringify(v, null, 2)`; the argument
is the indentation level of the surrounding context. -/
def stringifyAt : Nat → Json → String
  | _, .null => "null"
  | _, .bool b => cond b "true" "false"
  | _, .num n => toString n
  | _, .str s => "\"" ++ jsonEscape s ++ "\""
  | _, .arr [] => "[]"
  | ind, .arr l =>
      "[\n" ++ String.intercalate ",\n" (stringifyItems (ind + 2) l) ++
        "\n" ++ sp ind ++ "]"
  | _, .obj [] => "\x7b\x7d"
  | ind, .obj fs =>
      "\x7b\n" ++ String.intercalate ",\n" (stringifyFields (ind + 2) fs) ++
        "\n" ++ sp ind ++ "\x7d"

/-- Array elements rendered at the given indentation. -/
def stringifyItems : Nat → List Json → List String
  | _, [] => []
  | ind, x :: xs => (sp ind ++ stringifyAt ind x) :: stringifyItems ind xs

/-- Object fields rendered at the given indentation. -/
def stringifyFields : Nat → List (String × Json) → List String
  | _, [] => []
  | ind, (k, v) :: xs =>
      (sp ind ++ "\"" ++ jsonEscape k ++ "\": " ++ stringifyAt ind v) ::
        stringifyFields ind xs
end

/-- `JSON.stringify(v, null, 2)` at top level. -/
def jsonStringify2 (v : Json) : String := stringifyAt 0 v

/-- UTF-8 bytes of one character. -/
def utf8Bytes (c : Char) : List Nat :=
  let n := c.toNat
  if n < 0x80 then [n]
  else if n < 0x800 then [0xC0 + n / 64, 0x80 + n % 64]
  else if n < 0x10000 then
    [0xE0 + n / 4096, 0x80 + n / 64 % 64, 0x80 + n % 64]
  else
    [0xF0 + n / 262144, 0x80 + n / 4096 % 64, 0x80 + n / 64 % 64, 0x80 + n % 64]

/-- Percent-encoding of one byte, uppercase hex. -/
def percentByte (b : Nat) : String :=
  String.mk ['%', hexDigit (b / 16), hexDigit (b % 16)]

/-- `application/x-www-form-urlencoded` encoding of one character, as done by
`URLSearchParams.toString()`. -/
def formEncodeChar (c : Char) : String :=
  if c.isAlphanum || c = '*' || c = '-' || c = '.' || c = '_' then
    String.singleton c
  else if c = ' ' then "+"
  else String.join ((utf8Bytes c).map percentByte)

/-- Form-urlencoding of a string. -/
def formEncode (s : String) : String :=
  String.join (s.toList.map formEncodeChar)

/-- Query string produced by `URLSearchParams` for an ordered key/value list. -/
def encodeParams (ps : List (String × String)) : String :=
  String.intercalate "&" (ps.map fun p => formEncode p.1 ++ "=" ++ formEncode p.2)

/-- The closed taxonomy of classified errors raised by the HTTP request
executor (`AuthenticationError`, `RateLimitError`, `SendGridApiError` in
`src/utils/errors.ts`); each variant carries exactly the data the executor
passes to its constructor.  `retryAfterSeconds = none` models a `NaN`
produced by `parseInt`. -/
inductive SgError where
  | authentication (message : String)
  | rateLimit (message : String) (retryAfterSeconds : Option Int)
  | api (message : String) (status : Nat)
deriving DecidableEq, Repr

/-- Outcome of a client operation as observed by its caller: a returned value,
a classified error, or an uncaught JavaScript runtime error (`TypeError` from
an unguarded property access on `undefined`/`null`, `SyntaxError` from
`JSON.parse` on a malformed success body). -/
inductive JsResult (α : Type) where
  | ok (v : α)
  | err (e : SgError)
  | typeError
  | syntaxError

/-- Shape of an upstream HTTP response body: empty text, text that parses to a
JSON value, or non-empty text that fails to parse. -/
inductive Body where
  | empty
  | json (j : Json)
  | malformed

/-- An upstream HTTP response as inspected by the executor: status code, the
`Retry-After` header (absent = `none`), and the body. -/
structure HttpResponse where
  status : Nat
  retryAfterHeader : Option String
  body : Body

/-- Retry-after value computed at the 429 branch:
`retryAfter ? parseInt(retryAfter, 10) : 60` on the header string obtained
from `response.headers.get('Retry-After')` (absent header gives `null`,
and an empty header string is falsy). -/
def retryAfterValue (h : Option String) : Option Int :=
  match h with
  | none => some 60
  | some s => if s != "" then jsParseInt s else some 60

/-- Message of a `SendGridApiError` for a non-2xx, non-429/401/403 response:
parse the body, read an `errors` array (joining the entries' `message` fields
with `', '`) or a truthy top-level `message` field, else
`"API error: <status>"`.  A body that is empty or malformed makes
`JSON.parse` throw inside the `try`, selecting the default message; so does
the `TypeError` from `errorJson.errors` when the body parses to `null`, and
so does the `TypeError` from `e.message` when an entry of the `errors`
array is `null` (a non-null non-object entry merely reads as `undefined`
and contributes the empty string to the join). -/
def apiErrorMessage (status : Nat) (body : Body) : String :=
  let dflt := "API error: " ++ toString status
  match body with
  | .json j =>
      match j.field "errors" with
      | some (.arr es) =>
          if es.any Json.isNull then dflt
          else
            String.intercalate ", "
              (es.map fun e =>
                match e.field "message" with
                | some m => m.jsElemString
                | none => "")
      | _ =>
          match j.field "message" with
          | some m => if m.truthy then m.jsElemString else dflt
          | none => dflt
  | _ => dflt

/-- The HTTP request executor `SendGridClientImpl.request`, modelled as a
classifier of the upstream response: 429 raises `RateLimitError`, 401/403
raise `AuthenticationError`, any other non-2xx raises `SendGridApiError`;
status 204/202 and an empty success body yield an `undefined` result, and
otherwise the parsed JSON body is returned (`JSON.parse` raising
`SyntaxError` when the body is malformed). -/
def request (r : HttpResponse) : JsResult (Option Json) :=
  if r.status = 429 then
    .err (.rateLimit "Rate limit exceeded" (retryAfterValue r.retryAfterHeader))
  else if r.status = 401 ∨ r.status = 403 then
    .err (.authentication "Authentication failed. Check your API key.")
  else if ¬ (200 ≤ r.status ∧ r.status ≤ 299) then
    .err (.api (apiErrorMessage r.status r.body) r.status)
  else if r.status = 204 ∨ r.status = 202 then
    .ok none
  else
    match r.body with
    | .empty => .ok none
    | .json j => .ok (some j)
    | .malformed => .syntaxError

/-- Coercion of a possibly-absent response field to its declared array type;
a value of any other shape is treated as not present. -/
def asArr (v : Option Json) : Option (List Json) :=
  match v with
  | some (.arr l) => some l
  | _ => none

/-- Coercion of a possibly-absent response field to its declared string type. -/
def asStr (v : Option Json) : Option String :=
  match v with
  | some (.str s) => some s
  | _ => none

/-- Coercion of a possibly-absent response field to its declared number type. -/
def asInt (v : Option Json) : Option Int :=
  match v with
  | some (.num n) => some n
  | _ => none

/-- JS `x || []` on a possibly-absent array. -/
def jsArrOrEmpty (v : Option (List Json)) : List Json := v.getD []

/-- JS `x?.length || 0` on a possibly-absent array. -/
def jsLenOrZero (v : Option (List Json)) : Nat :=
  match v with
  | some l => l.length
  | none => 0

/-- JS truthiness `!!x` of a possibly-absent string. -/
def jsTruthyStr (v : Option String) : Bool :=
  match v with
  | some s => s != ""
  | none => false

/-- The `PaginatedResponse<T>` container built by the list operations
(`src/types/entities.ts`): items, per-page count, optional total, `hasMore`
flag and optional continuation token. -/
structure Paginated where
  items : List Json
  count : Nat
  total : Option Int
  hasMore : Bool
  nextPageToken : Option String

/-- Propagation of executor outcomes into an operation's post-processing
step: a resolved body is handed on, everything else rejects the operation's
promise unchanged. -/
def bindOk (x : JsResult (Option Json)) (f : Option Json → JsResult α) : JsResult α :=
  match x with
  | .ok b => f b
  | .err e => .err e
  | .typeError => .typeError
  | .syntaxError => .syntaxError

/-- Dispatch for operations whose post-processing starts with an unguarded
property access on the response value (`result.xyz`): an `undefined` or
`null` body throws a `TypeError`. -/
def bindObj (x : JsResult (Option Json)) (f : Json → JsResult α) : JsResult α :=
  bindOk x fun b =>
    match b with
    | none => .typeError
    | some .null => .typeError
    | some j => f j

/-- `SendGridClientImpl.listContacts` (response normalization; the query string
it sends does not affect the result and is not modelled): items from
`result.result || []`, count from `result.result?.length || 0`, total from
`result.contact_count`, cursor data from `result._metadata?.next`. -/
def listContacts (r : HttpResponse) : JsResult Paginated :=
  bindObj (request r) fun j =>
    let res := asArr (j.field "result")
    let next := asStr (optField (j.field "_metadata") "next")
    .ok { items := jsArrOrEmpty res
          count := jsLenOrZero res
          total := asInt (j.field "contact_count")
          hasMore := jsTruthyStr next
          nextPageToken := next }

/-- `SendGridClientImpl.searchContacts` (the query is passed through in the
request body and does not affect normalization): items from
`result.result || []`, total from `result.contact_count`, `hasMore: false`. -/
def searchContacts (r : HttpResponse) : JsResult Paginated :=
  bindObj (request r) fun j =>
    let res := asArr (j.field "result")
    .ok { items := jsArrOrEmpty res
          count := jsLenOrZero res
          total := asInt (j.field "contact_count")
          hasMore := false
          nextPageToken := none }

/-- `SendGridClientImpl.listContactLists`: items from `result.result || []`,
`hasMore: false`, no token, no total. -/
def listContactLists (r : HttpResponse) : JsResult Paginated :=
  bindObj (request r) fun j =>
    let res := asArr (j.field "result")
    .ok { items := jsArrOrEmpty res
          count := jsLenOrZero res
          total := none
          hasMore := false
          nextPageToken := none }

/-- `SendGridClientImpl.listSegments` (`parentListIds` only affects the query
string): items from `result.results || []`, `hasMore: false`. -/
def listSegments (r : HttpResponse) : JsResult Paginated :=
  bindObj (request r) fun j =>
    let res := asArr (j.field "results")
    .ok { items := jsArrOrEmpty res
          count := jsLenOrZero res
          total := none
          hasMore := false
          nextPageToken := none }

/-- `SendGridClientImpl.listSingleSends` (`status` only affects the query
string): items from `result.result || []`, `hasMore: false`. -/
def listSingleSends (r : HttpResponse) : JsResult Paginated :=
  bindObj (request r) fun j =>
    let res := asArr (j.field "result")
    .ok { items := jsArrOrEmpty res
          count := jsLenOrZero res
          total := none
          hasMore := false
          nextPageToken := none }

/-- `SendGridClientImpl.listApiKeys`: items from `result.result || []`,
`hasMore: false`. -/
def listApiKeys (r : HttpResponse) : JsResult Paginated :=
  bindObj (request r) fun j =>
    let res := asArr (j.field "result")
    .ok { items := jsArrOrEmpty res
          count := jsLenOrZero res
          total := none
          hasMore := false
          nextPageToken := none }

/-- `SendGridClientImpl.listSenderIdentities`: the body is a top-level array;
`result || []` and `result?.length || 0` tolerate an absent body, and
`hasMore: false`. -/
def listSenderIdentities (r : HttpResponse) : JsResult Paginated :=
  bindOk (request r) fun b =>
    let res := asArr b
    .ok { items := jsArrOrEmpty res
          count := jsLenOrZero res
          total := none
          hasMore := false
          nextPageToken := none }

/-- `SendGridClientImpl.listTemplates` (generation/page-size/token only affect
the query string): items from `result.result || []`, cursor data from
`result._metadata?.next`. -/
def listTemplates (r : HttpResponse) : JsResult Paginated :=
  bindObj (request r) fun j =>
    let res := asArr (j.field "result")
    let next := asStr (optField (j.field "_metadata") "next")
    .ok { items := jsArrOrEmpty res
          count := jsLenOrZero res
          total := none
          hasMore := jsTruthyStr next
          nextPageToken := next }

/-- `SendGridClientImpl.listDesigns` (page-size/token only affect the query
string): same shape as `listTemplates`. -/
def listDesigns (r : HttpResponse) : JsResult Paginated :=
  bindObj (request r) fun j =>
    let res := asArr (j.field "result")
    let next := asStr (optField (j.field "_metadata") "next")
    .ok { items := jsArrOrEmpty res
          count := jsLenOrZero res
          total := none
          hasMore := jsTruthyStr next
          nextPageToken := next }

/-- Shared normalization of the five suppression list operations
(`listBounces`, `listBlocks`, `listSpamReports`, `listInvalidEmails`,
`listGlobalSuppressions`), whose bodies are textually identical in the
source apart from the endpoint path: the body is a top-level array and
`hasMore` is the heuristic `result?.length === limit`. -/
def suppressionPage (limit : Nat) (r : HttpResponse) : JsResult Paginated :=
  bindOk (request r) fun b =>
    let res := asArr b
    .ok { items := jsArrOrEmpty res
          count := jsLenOrZero res
          total := none
          hasMore := match res with
                     | some l => l.length == limit
                     | none => false
          nextPageToken := none }

/-- `SendGridClientImpl.listBounces` (`startTime`/`endTime`/`offset` only
affect the query string; `limit` also feeds the `hasMore` heuristic). -/
def listBounces (limit : Nat) (r : HttpResponse) : JsResult Paginated :=
  suppressionPage limit r

/-- `SendGridClientImpl.listBlocks`. -/
def listBlocks (limit : Nat) (r : HttpResponse) : JsResult Paginated :=
  suppressionPage limit r

/-- `SendGridClientImpl.listSpamReports`. -/
def listSpamReports (limit : Nat) (r : HttpResponse) : JsResult Paginated :=
  suppressionPage limit r

/-- `SendGridClientImpl.listInvalidEmails`. -/
def listInvalidEmails (limit : Nat) (r : HttpResponse) : JsResult Paginated :=
  suppressionPage limit r

/-- `SendGridClientImpl.listGlobalSuppressions`. -/
def listGlobalSuppressions (limit : Nat) (r : HttpResponse) : JsResult Paginated :=
  suppressionPage limit r

/-- `SendGridClientImpl.getContact`: the parsed body is returned to the caller
unchanged (cast to `Contact`); errors propagate. -/
def getContact (r : HttpResponse) : JsResult (Option Json) :=
  request r

/-- `SendGridClientImpl.getContactByEmail`: inside a bare `try`, looks up
`result.result?.[email] || null`; the bare `catch` converts EVERY rejection
(classified errors as well as runtime errors, including the `TypeError` an
undefined/null body triggers inside the `try`) to `null`. -/
def getContactByEmail (email : String) (r : HttpResponse) : JsResult (Option Json) :=
  match request r with
  | .ok (some j) =>
      match optField (j.field "result") email with
      | some v => if v.truthy then .ok (some v) else .ok none
      | none => .ok none
  | _ => .ok none

/-- JS `x?.[0]` on a possibly-absent value: `undefined`/`null` short-circuit,
arrays index, strings yield their first character, objects look up key
`"0"`. -/
def optIndexZero (b : Option Json) : Option Json :=
  match b with
  | some (.arr (x :: _)) => some x
  | some (.str s) => if s.isEmpty then none else some (.str (s.take 1))
  | some (.obj fs) => lookupField fs "0"
  | _ => none

/-- `SendGridClientImpl.getGlobalSuppression`: inside a bare `try`, returns
`result?.[0] || null`; the bare `catch` converts every rejection to `null`. -/
def getGlobalSuppression (r : HttpResponse) : JsResult (Option Json) :=
  match request r with
  | .ok b =>
      match optIndexZero b with
      | some v => if v.truthy then .ok (some v) else .ok none
      | none => .ok none
  | _ => .ok none

/-- `SendGridClientImpl.validateBatchId`: a resolved request yields
`{ valid: true }`; the bare `catch` converts every rejection to
`{ valid: false }`. -/
def validateBatchId (r : HttpResponse) : JsResult Bool :=
  match request r with
  | .ok _ => .ok true
  | _ => .ok false

/-- `SendGridClientImpl.getScheduledSend`: returns `result[0]` with no guard,
so an `undefined` (empty/202/204) or `null` body throws a `TypeError`, an
empty array yields `undefined`, and errors propagate. -/
def getScheduledSend (r : HttpResponse) : JsResult (Option Json) :=
  bindOk (request r) fun b =>
    match b with
    | none => .typeError
    | some .null => .typeError
    | some (.arr (x :: _)) => .ok (some x)
    | some (.arr []) => .ok none
    | some (.str s) => if s.isEmpty then .ok none else .ok (some (.str (s.take 1)))
    | some (.obj fs) => .ok (lookupField fs "0")
    | some _ => .ok none

/-- An outbound HTTP request built by a client operation: relative path
(query string included), method, and optional JSON body (the serialized
form of the `body: JSON.stringify(...)` argument). -/
structure SgRequest where
  path : String
  method : String
  body : Option Json

/-- Keys of a request's JSON body, in serialization order. -/
def SgRequest.bodyKeys (r : SgRequest) : List String :=
  match r.body with
  | some (.obj fs) => fs.map Prod.fst
  | _ => []

/-- The typed input of `createSegment` (`SegmentInput` in
`src/types/entities.ts`). -/
structure SegmentInput where
  name : String
  queryDsl : String
  parentListIds : Option (List String)

/-- Request built by `SendGridClientImpl.createSegment`: the body literal
renames the input fields to the upstream snake-case names; a field whose
value is `undefined` is omitted by `JSON.stringify`. -/
def createSegmentRequest (input : SegmentInput) : SgRequest :=
  { path := "/marketing/segments/2.0"
    method := "POST"
    body := some (.obj
      ([("name", .str input.name), ("query_dsl", .str input.queryDsl)] ++
        match input.parentListIds with
        | some ids => [("parent_list_ids", .arr (ids.map .str))]
        | none => [])) }

/-- The typed input of `inviteTeammate` (`TeammateInput` in
`src/types/entities.ts`); the tool handler always constructs
`{ email, scopes, isAdmin }`. -/
structure TeammateInput where
  email : String
  scopes : List String
  isAdmin : Option Bool

/-- Request built by `SendGridClientImpl.inviteTeammate`:
`JSON.stringify(input)` serializes the typed input verbatim, keeping its
own (camel-style) property names; only an `undefined` property is
omitted. -/
def inviteTeammateRequest (input : TeammateInput) : SgRequest :=
  { path := "/teammates"
    method := "POST"
    body := some (.obj
      ([("email", .str input.email), ("scopes", .arr (input.scopes.map .str))] ++
        match input.isAdmin with
        | some b => [("isAdmin", .bool b)]
        | none => [])) }

/-- Request built by `SendGridClientImpl.sendEmail`: the `SendEmailInput`
object is serialized verbatim by `JSON.stringify(input)`; the client adds,
removes and renames nothing, so the body is exactly the caller's object. -/
def sendEmailRequest (input : Json) : SgRequest :=
  { path := "/mail/send", method := "POST", body := some input }

/-- Request built by `SendGridClientImpl.validateEmail`: the body starts as
`{ email }` and `source` is added only when truthy (supplied and
non-empty). -/
def validateEmailRequest (email : String) (source : Option String) : SgRequest :=
  { path := "/validations/email"
    method := "POST"
    body := some (.obj
      ([("email", .str email)] ++
        match source with
        | some s => if s != "" then [("source", .str s)] else []
        | none => [])) }

/-- Request built by `SendGridClientImpl.deleteContacts`: a query-string-only
DELETE with either `delete_all_contacts=true` or `ids=<comma-join>` encoded
by `URLSearchParams`. -/
def deleteContactsRequest (ids : List String) (deleteAllContacts : Bool) : SgRequest :=
  { path := "/marketing/contacts?" ++
      (if deleteAllContacts then encodeParams [("delete_all_contacts", "true")]
       else encodeParams [("ids", String.intercalate "," ids)])
    method := "DELETE"
    body := none }

/-- Request built by `SendGridClientImpl.deleteBounces`: DELETE with body
`{delete_all: true}` when `deleteAll` is set, else `{emails}`.  The
analogous `deleteBlocks`/`deleteSpamReports`/`deleteInvalidEmails` differ
only in the endpoint path. -/
def deleteBouncesRequest (emails : List String) (deleteAll : Bool) : SgRequest :=
  { path := "/suppression/bounces"
    method := "DELETE"
    body := some (if deleteAll then .obj [("delete_all", .bool true)]
                  else .obj [("emails", .arr (emails.map .str))]) }

/-- MCP tool response envelope (`ToolResponse` in `src/utils/formatters.ts`),
restricted to its single text block and error flag. -/
structure Envelope where
  text : String
  isError : Bool
deriving DecidableEq, Repr

/-- A destructive bulk-delete tool handler up to its network boundary: either
it rejects locally (returning an error envelope and issuing no HTTP
request), or it issues exactly one HTTP request through the client.  The
post-response half of the handler is independent of the guard behaviour the
claims are about. -/
inductive ToolAction where
  | rejectedLocally (env : Envelope)
  | issued (req : SgRequest)

/-- JS falsiness of the optional `deleteAll` boolean argument
(`!deleteAll`): true when the argument is absent or `false`. -/
def optBoolFalsy (b : Option Bool) : Bool :=
  match b with
  | none => true
  | some v => !v

/-- The `sendgrid_delete_contacts` handler guard (`src/tools/contacts.ts`):
`if (!ids && !deleteAll)` rejects with a local validation envelope before
any client call — note an empty `ids` array is truthy and passes the guard;
otherwise `client.deleteContacts(ids || [], deleteAll || false)` issues the
DELETE. -/
def toolDeleteContacts (ids : Option (List String)) (deleteAll : Option Bool) : ToolAction :=
  if ids.isNone && optBoolFalsy deleteAll then
    .rejectedLocally
      { text := jsonStringify2 (.obj [("error", .str "Either ids or deleteAll must be provided")])
        isError := true }
  else
    .issued (deleteContactsRequest (ids.getD []) (deleteAll.getD false))

/-- The `sendgrid_delete_bounces` handler guard (`src/tools/custom-fields.ts`):
`if (!emails && !deleteAll)` rejects locally, else
`client.deleteBounces(emails || [], deleteAll || false)`. -/
def toolDeleteBounces (emails : Option (List String)) (deleteAll : Option Bool) : ToolAction :=
  if emails.isNone && optBoolFalsy deleteAll then
    .rejectedLocally
      { text := jsonStringify2 (.obj [("error", .str "Either emails or deleteAll must be provided")])
        isError := true }
  else
    .issued (deleteBouncesRequest (emails.getD []) (deleteAll.getD false))

/-- The `sendgrid_delete_blocks` handler guard: as `toolDeleteBounces` but
with message `'Either emails or deleteAll required'` and the blocks
endpoint. -/
def toolDeleteBlocks (emails : Option (List String)) (deleteAll : Option Bool) : ToolAction :=
  if emails.isNone && optBoolFalsy deleteAll then
    .rejectedLocally
      { text := jsonStringify2 (.obj [("error", .str "Either emails or deleteAll required")])
        isError := true }
  else
    .issued { deleteBouncesRequest (emails.getD []) (deleteAll.getD false) with
                path := "/suppression/blocks" }

/-- The `sendgrid_delete_spam_reports` handler guard: same shape and message
as `toolDeleteBlocks`, spam-reports endpoint. -/
def toolDeleteSpamReports (emails : Option (List String)) (deleteAll : Option Bool) : ToolAction :=
  if emails.isNone && optBoolFalsy deleteAll then
    .rejectedLocally
      { text := jsonStringify2 (.obj [("error", .str "Either emails or deleteAll required")])
        isError := true }
  else
    .issued { deleteBouncesRequest (emails.getD []) (deleteAll.getD false) with
                path := "/suppression/spam_reports" }

/-- The `sendgrid_delete_invalid_emails` handler guard: same shape and message
as `toolDeleteBlocks`, invalid-emails endpoint. -/
def toolDeleteInvalidEmails (emails : Option (List String)) (deleteAll : Option Bool) : ToolAction :=
  if emails.isNone && optBoolFalsy deleteAll then
    .rejectedLocally
      { text := jsonStringify2 (.obj [("error", .str "Either emails or deleteAll required")])
        isError := true }
  else
    .issued { deleteBouncesRequest (emails.getD []) (deleteAll.getD false) with
                path := "/suppression/invalid_emails" }

/-- Rate-limit data observed by the caller: `some (message, retryAfter)`
exactly when the outcome is a `RateLimitError`. -/
def rateLimitInfoOf (x : JsResult (Option Json)) : Option (String × Option Int) :=
  match x with
  | .err (.rateLimit m t) => some (m, t)
  | _ => none

/-- Generic-API-error data observed by the caller: `some (message, status)`
exactly when the outcome is a `SendGridApiError`. -/
def apiErrorInfoOf (x : JsResult (Option Json)) : Option (String × Nat) :=
  match x with
  | .err (.api m s) => some (m, s)
  | _ => none

/-- A paginated outcome with `hasMore = false` and no continuation token. -/
def noCursorPage : JsResult Paginated → Bool
  | .ok p => !p.hasMore && p.nextPageToken.isNone
  | _ => true

/-- A paginated outcome following the suppression-list heuristic: `hasMore`
is exactly `items.length == limit` and there is never a token. -/
def heuristicPage (limit : Nat) : JsResult Paginated → Bool
  | .ok p => (p.hasMore == (p.items.length == limit)) && p.nextPageToken.isNone
  | _ => true

/-- `bindObj` post-processing preserves any predicate that holds of every
value the continuation can produce and of non-`ok` outcomes. -/
theorem bindObj_pred {α : Type} (p : JsResult α → Bool) (x : JsResult (Option Json))
    (f : Json → JsResult α)
    (herr : ∀ e, p (.err e) = true) (hty : p .typeError = true)
    (hsy : p .syntaxError = true) (hf : ∀ j, p (f j) = true) :
    p (bindObj x f) = true := by
  cases x with
  | ok b =>
      cases b with
      | none => exact hty
      | some j => cases j <;> simp [bindObj, bindOk] <;> first | exact hty | exact hf _
  | err e => exact herr e
  | typeError => exact hty
  | syntaxError => exact hsy

/-- `bindOk` version of `bindObj_pred`. -/
theorem bindOk_pred {α : Type} (p : JsResult α → Bool) (x : JsResult (Option Json))
    (f : Option Json → JsResult α)
    (herr : ∀ e, p (.err e) = true) (hty : p .typeError = true)
    (hsy : p .syntaxError = true) (hf : ∀ b, p (f b) = true) :
    p (bindOk x f) = true := by
  cases x with
  | ok b => exact hf b
  | err e => exact herr e
  | typeError => exact hty
  | syntaxError => exact hsy

/-- Faithful raw-value model of the `PaginatedResponse` construction: unlike
`Paginated` above, whose fields are coerced to the operation's declared
response types, `items`, `total` and `nextPageToken` here carry the raw
JavaScript values the source assigns — in particular `items: x || []`
passes a truthy non-array upstream value through verbatim. -/
structure RawPage where
  items : Json
  count : Nat
  total : Option Json
  hasMore : Bool
  nextPageToken : Option Json

/-- JS `x || []` on a raw possibly-undefined value: a truthy value is passed
through verbatim; `undefined`, `null` and the other falsy values give
`[]`. -/
def jsOrSelf (v : Option Json) : Json :=
  match v with
  | some j => if j.truthy then j else .arr []
  | none => .arr []

/-- JS `x?.length` on a raw possibly-undefined value: the length of an array
or string, `undefined` otherwise.  A plain object's own `length` key is not
modelled — no operation's declared response shape carries one, and the
theorems below leave non-array `items` unconstrained.  String length is
counted in characters. -/
def jsLenOf (v : Option Json) : Option Nat :=
  match v with
  | some (.arr l) => some l.length
  | some (.str s) => some s.length
  | _ => none

/-- JS `x?.length || 0` on a raw possibly-undefined value. -/
def jsCount (v : Option Json) : Nat :=
  match jsLenOf v with
  | some n => n
  | none => 0

/-- JS truthiness `!!x` of a raw possibly-undefined value. -/
def jsTruthyOpt (v : Option Json) : Bool :=
  match v with
  | some j => j.truthy
  | none => false

/-- Raw-value model of `SendGridClientImpl.listContacts`: `result.result`,
`result.contact_count` and `result._metadata?.next` are read off the
parsed body and assigned untranslated. -/
def listContactsRaw (r : HttpResponse) : JsResult RawPage :=
  bindObj (request r) fun j =>
    let res := j.field "result"
    let next := optField (j.field "_metadata") "next"
    .ok { items := jsOrSelf res
          count := jsCount res
          total := j.field "contact_count"
          hasMore := jsTruthyOpt next
          nextPageToken := next }

/-- Raw-value model of `SendGridClientImpl.searchContacts`. -/
def searchContactsRaw (r : HttpResponse) : JsResult RawPage :=
  bindObj (request r) fun j =>
    let res := j.field "result"
    .ok { items := jsOrSelf res
          count := jsCount res
          total := j.field "contact_count"
          hasMore := false
          nextPageToken := none }

/-- Raw-value model of `SendGridClientImpl.listContactLists`. -/
def listContactListsRaw (r : HttpResponse) : JsResult RawPage :=
  bindObj (request r) fun j =>
    let res := j.field "result"
    .ok { items := jsOrSelf res
          count := jsCount res
          total := none
          hasMore := false
          nextPageToken := none }

/-- Raw-value model of `SendGridClientImpl.listSegments` (items from
`result.results`). -/
def listSegmentsRaw (r : HttpResponse) : JsResult RawPage :=
  bindObj (request r) fun j =>
    let res := j.field "results"
    .ok { items := jsOrSelf res
          count := jsCount res
          total := none
          hasMore := false
          nextPageToken := none }

/-- Raw-value model of `SendGridClientImpl.listSingleSends`. -/
def listSingleSendsRaw (r : HttpResponse) : JsResult RawPage :=
  bindObj (request r) fun j =>
    let res := j.field "result"
    .ok { items := jsOrSelf res
          count := jsCount res
          total := none
          hasMore := false
          nextPageToken := none }

/-- Raw-value model of `SendGridClientImpl.listApiKeys`. -/
def listApiKeysRaw (r : HttpResponse) : JsResult RawPage :=
  bindObj (request r) fun j =>
    let res := j.field "result"
    .ok { items := jsOrSelf res
          count := jsCount res
          total := none
          hasMore := false
          nextPageToken := none }

/-- Raw-value model of `SendGridClientImpl.listSenderIdentities`: the body
itself is the source value (`result || []`, `result?.length || 0`). -/
def listSenderIdentitiesRaw (r : HttpResponse) : JsResult RawPage :=
  bindOk (request r) fun b =>
    .ok { items := jsOrSelf b
          count := jsCount b
          total := none
          hasMore := false
          nextPageToken := none }

/-- Raw-value model of `SendGridClientImpl.listTemplates`. -/
def listTemplatesRaw (r : HttpResponse) : JsResult RawPage :=
  bindObj (request r) fun j =>
    let res := j.field "result"
    let next := optField (j.field "_metadata") "next"
    .ok { items := jsOrSelf res
          count := jsCount res
          total := none
          hasMore := jsTruthyOpt next
          nextPageToken := next }

/-- Raw-value model of `SendGridClientImpl.listDesigns`. -/
def listDesignsRaw (r : HttpResponse) : JsResult RawPage :=
  bindObj (request r) fun j =>
    let res := j.field "result"
    let next := optField (j.field "_metadata") "next"
    .ok { items := jsOrSelf res
          count := jsCount res
          total := none
          hasMore := jsTruthyOpt next
          nextPageToken := next }

/-- Raw-value model of the shared suppression list normalization: the body
is the source value and `hasMore` is `result?.length === limit` (an
undefined length never equals the numeric limit). -/
def suppressionPageRaw (limit : Nat) (r : HttpResponse) : JsResult RawPage :=
  bindOk (request r) fun b =>
    .ok { items := jsOrSelf b
          count := jsCount b
          total := none
          hasMore := match jsLenOf b with
                     | some n => n == limit
                     | none => false
          nextPageToken := none }

/-- Raw-value model of `SendGridClientImpl.listBounces`. -/
def listBouncesRaw (limit : Nat) (r : HttpResponse) : JsResult RawPage :=
  suppressionPageRaw limit r

/-- Raw-value model of `SendGridClientImpl.listBlocks`. -/
def listBlocksRaw (limit : Nat) (r : HttpResponse) : JsResult RawPage :=
  suppressionPageRaw limit r

/-- Raw-value model of `SendGridClientImpl.listSpamReports`. -/
def listSpamReportsRaw (limit : Nat) (r : HttpResponse) : JsResult RawPage :=
  suppressionPageRaw limit r

/-- Raw-value model of `SendGridClientImpl.listInvalidEmails`. -/
def listInvalidEmailsRaw (limit : Nat) (r : HttpResponse) : JsResult RawPage :=
  suppressionPageRaw limit r

/-- Raw-value model of `SendGridClientImpl.listGlobalSuppressions`. -/
def listGlobalSuppressionsRaw (limit : Nat) (r : HttpResponse) : JsResult RawPage :=
  suppressionPageRaw limit r

/-- Array length of a JSON value, when it is an array. -/
def Json.arrLength : Json → Option Nat
  | .arr l => some l.length
  | _ => none

/-- The count invariant on a raw page: whenever `items` is an array, `count`
equals its length; outcomes without a page, and pages whose `items` is not
an array, are not constrained. -/
def rawCountOk : JsResult RawPage → Bool
  | .ok p =>
      match p.items with
      | .arr l => p.count == l.length
      | _ => true
  | _ => true

/-- Pages built by the raw `{ items: x || [], count: x?.length || 0 }`
pattern satisfy the count invariant: whenever `items` ends up an array
(the source value was an array or falsy/absent), `count` is its length. -/
theorem rawCountOk_mk (res : Option Json) (t : Option Json) (hm : Bool)
    (tok : Option Json) :
    rawCountOk (.ok { items := jsOrSelf res, count := jsCount res,
                      total := t, hasMore := hm, nextPageToken := tok }) = true := by
  cases res with
  | none => rfl
  | some j =>
      cases j with
      | null => rfl
      | bool b => cases b <;> rfl
      | num n =>
          by_cases hn : n = 0 <;>
            simp [jsOrSelf, jsCount, jsLenOf, Json.truthy, rawCountOk, hn]
      | str s =>
          by_cases hs : s = ""
          · subst hs
            rfl
          · simp [jsOrSelf, jsCount, jsLenOf, Json.truthy, rawCountOk, hs]
      | arr l => simp [jsOrSelf, jsCount, jsLenOf, Json.truthy, rawCountOk]
      | obj fs => rfl

/-- C7 counterexample: for upstream body `{"result": 42}`, the source's
`result.result || []` passes the truthy non-array value 42 through, so
`listContactLists` constructs a page whose `items` is the number 42 while
`count` is 0 (`(42)?.length` is `undefined`); `items` has no array length
at all, so `count` does not equal the length of an items array, refuting
the claim's quantification over every upstream response shape. -/
theorem C7_counterexample :
    listContactListsRaw ⟨200, none, .json (.obj [("result", .num 42)])⟩ =
      .ok { items := .num 42, count := 0, total := none, hasMore := false,
            nextPageToken := none } ∧
    Json.arrLength (.num 42) ≠ some 0 := by
  exact ⟨rfl, by decide⟩

/-- C7 (amended): every page constructed by any client list operation has
`count` equal to the length of `items` whenever `items` is an array —
which is the case exactly when the upstream result value is absent, falsy
or an array, including the missing and empty result arrays the claim
highlights; a truthy non-array result value is instead passed through
verbatim as `items` (with `count` falling back through
`x?.length || 0`), and then no items array exists for `count` to equal. -/
theorem C7_count_invariant_amended (r : HttpResponse) :
    rawCountOk (listContactsRaw r) = true ∧
    rawCountOk (searchContactsRaw r) = true ∧
    rawCountOk (listContactListsRaw r) = true ∧
    rawCountOk (listSegmentsRaw r) = true ∧
    rawCountOk (listSingleSendsRaw r) = true ∧
    rawCountOk (listApiKeysRaw r) = true ∧
    rawCountOk (listSenderIdentitiesRaw r) = true ∧
    rawCountOk (listTemplatesRaw r) = true ∧
    rawCountOk (listDesignsRaw r) = true ∧
    ∀ limit : Nat,
      rawCountOk (listBouncesRaw limit r) = true ∧
      rawCountOk (listBlocksRaw limit r) = true ∧
      rawCountOk (listSpamReportsRaw limit r) = true ∧
      rawCountOk (listInvalidEmailsRaw limit r) = true ∧
      rawCountOk (listGlobalSuppressionsRaw limit r) = true := by
  refine ⟨?_, ?_, ?_, ?_, ?_, ?_, ?_, ?_, ?_, ?_⟩
  case _ =>
    exact bindObj_pred rawCountOk (request r) _ (fun _ => rfl) rfl rfl
      (fun j => rawCountOk_mk _ _ _ _)
  case _ =>
    exact bindObj_pred rawCountOk (request r) _ (fun _ => rfl) rfl rfl
      (fun j => rawCountOk_mk _ _ _ _)
  case _ =>
    exact bindObj_pred rawCountOk (request r) _ (fun _ => rfl) rfl rfl
      (fun j => rawCountOk_mk _ _ _ _)
  case _ =>
    exact bindObj_pred rawCountOk (request r) _ (fun _ => rfl) rfl rfl
      (fun j => rawCountOk_mk _ _ _ _)
  case _ =>
    exact bindObj_pred rawCountOk (request r) _ (fun _ => rfl) rfl rfl
      (fun j => rawCountOk_mk _ _ _ _)
  case _ =>
    exact bindObj_pred rawCountOk (request r) _ (fun _ => rfl) rfl rfl
      (fun j => rawCountOk_mk _ _ _ _)
  case _ =>
    exact bindOk_pred rawCountOk (request r) _ (fun _ => rfl) rfl rfl
      (fun b => rawCountOk_mk _ _ _ _)
  case _ =>
    exact bindObj_pred rawCountOk (request r) _ (fun _ => rfl) rfl rfl
      (fun j => rawCountOk_mk _ _ _ _)
  case _ =>
    exact bindObj_pred rawCountOk (request r) _ (fun _ => rfl) rfl rfl
      (fun j => rawCountOk_mk _ _ _ _)
  case _ =>
    intro limit
    refine ⟨?_, ?_, ?_, ?_, ?_⟩ <;>
      exact bindOk_pred rawCountOk (request r) _ (fun _ => rfl) rfl rfl
        (fun b => rawCountOk_mk _ _ _ _)

/-- C1 counterexample: `listBounces` is among the operations the claim says
always return `hasMore = false`, yet with `limit = 1` and an upstream body
that is a one-element array it returns `hasMore = true` (the
`result?.length === limit` heuristic), refuting the claim as stated. -/
theorem C1_counterexample :
    noCursorPage
      (listBounces 1
        ⟨200, none, .json (.arr [.obj [("email", .str "a@example.com")]])⟩) = false := by
  rfl

/-- Pages built with `hasMore: false` and no token satisfy `noCursorPage`. -/
theorem noCursorPage_mk (res : Option (List Json)) (t : Option Int) :
    noCursorPage (.ok { items := jsArrOrEmpty res, count := jsLenOrZero res,
                        total := t, hasMore := false, nextPageToken := none }) = true := by
  rfl

/-- Pages built by the suppression-list heuristic satisfy `heuristicPage`
whenever the requested limit is positive. -/
theorem heuristicPage_mk (limit : Nat) (hl : 1 ≤ limit) (res : Option (List Json)) :
    heuristicPage limit
      (.ok { items := jsArrOrEmpty res, count := jsLenOrZero res, total := none,
             hasMore := match res with
                        | some l => l.length == limit
                        | none => false,
             nextPageToken := none }) = true := by
  cases res with
  | none =>
      simp only [heuristicPage, jsArrOrEmpty, Option.getD, List.length_nil,
        Option.isNone_none, Bool.and_true]
      have : (0 == limit) = false := by
        simp only [beq_eq_false_iff_ne, ne_eq]
        omega
      simp [this]
  | some l => simp [heuristicPage, jsArrOrEmpty]

/-- C1 (amended): among the paginated operations without a provider cursor,
`listContactLists`, `listSegments`, `listSingleSends`, `searchContacts`,
`listApiKeys` and `listSenderIdentities` always return `hasMore = false`
and no `nextPageToken`; the suppression list operations (`listBounces`,
`listBlocks`, `listSpamReports`, `listInvalidEmails`,
`listGlobalSuppressions`) never return a token but set `hasMore` by the
heuristic `items.length == limit` (for the positive limits the tool layer
allows), not constantly `false`. -/
theorem C1_noncursor_pagination_amended (r : HttpResponse) (limit : Nat)
    (hl : 1 ≤ limit) :
    noCursorPage (listContactLists r) = true ∧
    noCursorPage (listSegments r) = true ∧
    noCursorPage (listSingleSends r) = true ∧
    noCursorPage (searchContacts r) = true ∧
    noCursorPage (listApiKeys r) = true ∧
    noCursorPage (listSenderIdentities r) = true ∧
    heuristicPage limit (listBounces limit r) = true ∧
    heuristicPage limit (listBlocks limit r) = true ∧
    heuristicPage limit (listSpamReports limit r) = true ∧
    heuristicPage limit (listInvalidEmails limit r) = true ∧
    heuristicPage limit (listGlobalSuppressions limit r) = true := by
  refine ⟨?_, ?_, ?_, ?_, ?_, ?_, ?_, ?_, ?_, ?_, ?_⟩
  case _ =>
    exact bindObj_pred noCursorPage (request r) _ (fun _ => rfl) rfl rfl
      (fun j => noCursorPage_mk _ _)
  case _ =>
    exact bindObj_pred noCursorPage (request r) _ (fun _ => rfl) rfl rfl
      (fun j => noCursorPage_mk _ _)
  case _ =>
    exact bindObj_pred noCursorPage (request r) _ (fun _ => rfl) rfl rfl
      (fun j => noCursorPage_mk _ _)
  case _ =>
    exact bindObj_pred noCursorPage (request r) _ (fun _ => rfl) rfl rfl
      (fun j => noCursorPage_mk _ _)
  case _ =>
    exact bindObj_pred noCursorPage (request r) _ (fun _ => rfl) rfl rfl
      (fun j => noCursorPage_mk _ _)
  case _ =>
    exact bindOk_pred noCursorPage (request r) _ (fun _ => rfl) rfl rfl
      (fun b => noCursorPage_mk _ _)
  all_goals
    exact bindOk_pred (heuristicPage limit) (request r) _ (fun _ => rfl) rfl rfl
      (fun b => heuristicPage_mk limit hl _)

/-- C1 witness: the amended pagination statement instantiated at a concrete
response carrying a two-element bounce array and the default limit 500. -/
theorem C1_noncursor_pagination_witness :
    noCursorPage (listContactLists ⟨200, none,
      .json (.obj [("result", .arr [.obj []])])⟩) = true ∧
    heuristicPage 500 (listBounces 500 ⟨200, none,
      .json (.obj [("result", .arr [.obj []])])⟩) = true := by
  have h := C1_noncursor_pagination_amended
    ⟨200, none, .json (.obj [("result", .arr [.obj []])])⟩ 500 (by decide)
  exact ⟨h.1, h.2.2.2.2.2.2.1⟩

/-- C2 counterexample: on a 401 response the executor raises an
`AuthenticationError`, yet `getContactByEmail` returns `null` (a non-error
result) — its bare `catch` converts authentication errors, not only the
not-found case, refuting the claim as stated. -/
theorem C2_counterexample :
    request ⟨401, none, .empty⟩ =
      .err (.authentication "Authentication failed. Check your API key.") ∧
    getContactByEmail "a@example.com" ⟨401, none, .empty⟩ = .ok none := by
  exact ⟨rfl, rfl⟩

/-- C2 (amended): classified errors raised by the executor propagate
unchanged through operations that do not wrap their request in a `try`
(`getContact`, the list operations, `getScheduledSend`, ...), but
`getContactByEmail`, `getGlobalSuppression` and `validateBatchId` wrap the
whole call in a bare `catch` and convert EVERY classified error —
authentication, rate-limit and generic API errors alike, not only the
not-found lookup case — into their non-error fallback (`null`, `null`,
`{valid: false}` respectively). -/
theorem C2_error_propagation_amended (r : HttpResponse) (e : SgError)
    (email : String) (h : request r = .err e) :
    getContact r = .err e ∧
    listContactLists r = .err e ∧
    searchContacts r = .err e ∧
    (∀ limit, listBounces limit r = .err e) ∧
    getScheduledSend r = .err e ∧
    getContactByEmail email r = .ok none ∧
    getGlobalSuppression r = .ok none ∧
    validateBatchId r = .ok false := by
  refine ⟨?_, ?_, ?_, ?_, ?_, ?_, ?_, ?_⟩
  · simpa [getContact] using h
  · simp [listContactLists, bindObj, bindOk, h]
  · simp [searchContacts, bindObj, bindOk, h]
  · intro limit
    simp [listBounces, suppressionPage, bindOk, h]
  · simp [getScheduledSend, bindOk, h]
  · simp [getContactByEmail, h]
  · simp [getGlobalSuppression, h]
  · simp [validateBatchId, h]

/-- C2 witness: the amended propagation statement instantiated at a concrete
429 response, whose rate-limit error propagates through `getContact` but is
swallowed by `validateBatchId`. -/
theorem C2_error_propagation_witness :
    getContact ⟨429, some "7", .empty⟩ =
      .err (.rateLimit "Rate limit exceeded" (some 7)) ∧
    validateBatchId ⟨429, some "7", .empty⟩ = .ok false := by
  have h := C2_error_propagation_amended ⟨429, some "7", .empty⟩
    (.rateLimit "Rate limit exceeded" (some 7)) "a@example.com" (by rfl)
  exact ⟨h.1, h.2.2.2.2.2.2.2⟩

/-- The upstream lower-snake-case field-name convention: only lowercase
letters, digits and underscores. -/
def isLowerSnakeCase (s : String) : Bool :=
  s.toList.all fun c => c.isLower || c.isDigit || c = '_'

/-- C3 counterexample: `inviteTeammate` serializes its typed input verbatim,
so the outbound payload carries the camel-style key `isAdmin` — not every
field name of its payload is in the upstream lower-snake-case convention,
refuting the claim as stated. -/
theorem C3_counterexample :
    (inviteTeammateRequest ⟨"new@example.com", ["mail.send"], some true⟩).bodyKeys =
      ["email", "scopes", "isAdmin"] ∧
    ((inviteTeammateRequest ⟨"new@example.com", ["mail.send"], some true⟩).bodyKeys.all
      isLowerSnakeCase) = false := by
  exact ⟨rfl, by decide⟩

/-- C3 (amended): `createSegment` renames its payload to the upstream
lower-snake-case names (`name`, `query_dsl`, `parent_list_ids`) and omits
`parent_list_ids` entirely when not supplied; but `sendEmail` and
`inviteTeammate` serialize their typed inputs verbatim, so their payloads
keep the compact camel-style field names of the input (e.g. `isAdmin`)
rather than the upstream convention. -/
theorem C3_field_name_convention_amended (i : SegmentInput) (t : TeammateInput)
    (m : Json) :
    ((createSegmentRequest i).bodyKeys.all isLowerSnakeCase) = true ∧
    (createSegmentRequest i).bodyKeys =
      ["name", "query_dsl"] ++
        (match i.parentListIds with
         | some _ => ["parent_list_ids"]
         | none => []) ∧
    (sendEmailRequest m).body = some m ∧
    (inviteTeammateRequest t).bodyKeys =
      ["email", "scopes"] ++
        (match t.isAdmin with
         | some _ => ["isAdmin"]
         | none => []) := by
  refine ⟨?_, ?_, rfl, ?_⟩
  · cases h : i.parentListIds <;>
      simp [createSegmentRequest, SgRequest.bodyKeys, h] <;> decide
  · cases h : i.parentListIds <;>
      simp [createSegmentRequest, SgRequest.bodyKeys, h]
  · cases h : t.isAdmin <;>
      simp [inviteTeammateRequest, SgRequest.bodyKeys, h]

/-- The integer value a `Retry-After` header denotes under its delta-seconds
grammar: defined exactly for non-empty all-digit header strings, read in
decimal.  Used to state what the spec means by "the integer value of the
header". -/
def headerIntValue (s : String) : Option Int :=
  if s.toList ≠ [] ∧ s.toList.all Char.isDigit then
    some ((s.toList.foldl (fun a c => a * 10 + (c.toNat - 48)) 0 : Nat) : Int)
  else none

/-- A decimal digit is not `parseInt` whitespace. -/
theorem digit_not_jsWhitespace (c : Char) (h : c.isDigit = true) :
    jsWhitespace c = false := by
  by_contra hws
  rw [Bool.not_eq_false] at hws
  simp only [jsWhitespace, Bool.or_eq_true, decide_eq_true_eq] at hws
  rcases hws with ((((hws | hws) | hws) | hws) | hws) | hws <;>
    · subst hws
      revert h
      decide

/-- A decimal digit is not a sign character. -/
theorem digit_ne_sign (c : Char) (h : c.isDigit = true) : c ≠ '-' ∧ c ≠ '+' := by
  simp only [Char.isDigit] at h
  constructor <;>
    · rintro rfl
      revert h
      decide

/-- `takeWhile` keeps a list all of whose elements satisfy the predicate. -/
theorem takeWhile_of_all {α : Type} (p : α → Bool) (l : List α)
    (h : l.all p = true) : l.takeWhile p = l := by
  induction l with
  | nil => rfl
  | cons a l ih =>
      simp only [List.all_cons, Bool.and_eq_true] at h
      simp [List.takeWhile_cons, h.1, ih h.2]

/-- On a non-empty all-digit string, JavaScript `parseInt` reads the whole
string as a decimal number. -/
theorem jsParseInt_digits (s : String) (h1 : s.toList ≠ [])
    (h2 : s.toList.all Char.isDigit = true) :
    jsParseInt s =
      some ((s.toList.foldl (fun a c => a * 10 + (c.toNat - 48)) 0 : Nat) : Int) := by
  obtain ⟨c, cs, hc⟩ : ∃ c cs, s.toList = c :: cs := by
    cases hl : s.toList with
    | nil => exact absurd hl h1
    | cons c cs => exact ⟨c, cs, rfl⟩
  have hcd : c.isDigit = true := by
    have := h2
    rw [hc, List.all_cons, Bool.and_eq_true] at this
    exact this.1
  have hdrop : s.toList.dropWhile jsWhitespace = c :: cs := by
    rw [hc, List.dropWhile_cons, digit_not_jsWhitespace c hcd]
    simp
  have hsign := digit_ne_sign c hcd
  have htake : (c :: cs).takeWhile Char.isDigit = c :: cs := by
    refine takeWhile_of_all _ _ ?_
    rw [← hc]
    exact h2
  simp only [jsParseInt, hdrop, List.head?_cons]
  rw [if_neg (by simpa using hsign.1), if_neg (by simpa using hsign.2)]
  simp only [digitsPrefixVal, htake, List.isEmpty_cons, Bool.false_eq_true,
    if_false, Option.map_some]
  rw [hc]
  rfl

/-- C4: a 429 response raises a `RateLimitError` and nothing else does; its
retry-after is 60 when the `Retry-After` header is absent, and the header's
integer value whenever the header denotes one. -/
theorem C4_rate_limit_retry_after (r : HttpResponse) :
    (rateLimitInfoOf (request r)).isSome = decide (r.status = 429) ∧
    (r.status = 429 → r.retryAfterHeader = none →
      request r = .err (.rateLimit "Rate limit exceeded" (some 60))) ∧
    (∀ s n, r.status = 429 → r.retryAfterHeader = some s →
      headerIntValue s = some n →
      request r = .err (.rateLimit "Rate limit exceeded" (some n))) := by
  refine ⟨?_, ?_, ?_⟩
  · by_cases h : r.status = 429
    · simp [request, h, rateLimitInfoOf]
    · simp only [request, if_neg h]
      split
      · simp [rateLimitInfoOf, h]
      · split
        · simp [rateLimitInfoOf, h]
        · split
          · simp [rateLimitInfoOf, h]
          · split <;> simp [rateLimitInfoOf, h]
  · intro h429 hnone
    simp [request, h429, retryAfterValue, hnone]
  · intro s n h429 hsome hval
    have hne : s.toList ≠ [] ∧ s.toList.all Char.isDigit = true := by
      by_contra hcontra
      simp only [headerIntValue, if_neg hcontra] at hval
      exact Option.noConfusion hval
    have hparse : jsParseInt s = some n := by
      rw [jsParseInt_digits s hne.1 hne.2]
      simp only [headerIntValue, if_pos hne] at hval
      exact hval
    have hs : (s != "") = true := by
      simp only [bne_iff_ne, ne_eq]
      intro hempty
      exact hne.1 (by simp [hempty])
    simp [request, h429, retryAfterValue, hsome, hs, hparse]

/-- C4 witness: the retry-after contract instantiated at concrete 429
responses with the header absent and with header value `"120"`, and at a
500 response which yields no rate-limit error. -/
theorem C4_rate_limit_retry_after_witness :
    request ⟨429, none, .empty⟩ =
      .err (.rateLimit "Rate limit exceeded" (some 60)) ∧
    request ⟨429, some "120", .empty⟩ =
      .err (.rateLimit "Rate limit exceeded" (some 120)) ∧
    (rateLimitInfoOf (request ⟨500, none, .empty⟩)).isSome = false := by
  refine ⟨?_, ?_, ?_⟩
  · exact (C4_rate_limit_retry_after ⟨429, none, .empty⟩).2.1 rfl rfl
  · exact (C4_rate_limit_retry_after ⟨429, some "120", .empty⟩).2.2 "120" 120 rfl rfl
      (by decide)
  · have h := (C4_rate_limit_retry_after ⟨500, none, .empty⟩).1
    simpa using h

/-- String contributed by a possibly-missing `message` field to the joined
error message. -/
def joinElemStr (v : Option Json) : String :=
  match v with
  | some m => m.jsElemString
  | none => ""

/-- Whether a parsed error body has a top-level `errors` field holding an
array. -/
def hasErrorsArray (j : Json) : Bool :=
  match j.field "errors" with
  | some (.arr _) => true
  | _ => false

/-- Join of all `errors` entries' `message` fields with `', '`. -/
def errorsJoin (j : Json) : String :=
  match j.field "errors" with
  | some (.arr es) => String.intercalate ", " (es.map fun e => joinElemStr (e.field "message"))
  | _ => ""

/-- The generic-error message as the claim words it: an errors array gives
the join of the entries' message fields; otherwise a PRESENT top-level
`message` field is the message; otherwise (parse failure or neither field)
the fallback string. -/
def specGenericMessageClaim (status : Nat) (body : Body) : String :=
  match body with
  | .json j =>
      if hasErrorsArray j then errorsJoin j
      else
        match j.field "message" with
        | some m => m.jsElemString
        | none => "API error: " ++ toString status
  | _ => "API error: " ++ toString status

/-- Whether the `errors` array of a parsed error body contains a `null`
entry (on which the source's `e.message` access throws a `TypeError`
inside the `try`). -/
def errorsHasNull (j : Json) : Bool :=
  match j.field "errors" with
  | some (.arr es) => es.any Json.isNull
  | _ => false

/-- The generic-error message as amended: identical to the claim's wording
except that (a) a `null` entry of the `errors` array makes the per-entry
`message` access throw inside the `try`, restoring the fallback message,
and (b) the `message` branch requires the field to be TRUTHY (the code
tests `else if (errorJson.message)`), so a present-but-falsy `message`
field — e.g. the empty string — falls through to the fallback. -/
def specGenericMessage (status : Nat) (body : Body) : String :=
  match body with
  | .json j =>
      if hasErrorsArray j then
        if errorsHasNull j then "API error: " ++ toString status else errorsJoin j
      else
        match j.field "message" with
        | some m => if m.truthy then m.jsElemString else "API error: " ++ toString status
        | none => "API error: " ++ toString status
  | _ => "API error: " ++ toString status

/-- The executor's message extraction agrees everywhere with the amended
specification wording. -/
theorem apiErrorMessage_eq_spec (status : Nat) (body : Body) :
    apiErrorMessage status body = specGenericMessage status body := by
  cases body with
  | empty => rfl
  | malformed => rfl
  | json j =>
      simp only [apiErrorMessage, specGenericMessage, hasErrorsArray, errorsHasNull,
        errorsJoin, joinElemStr]
      cases hf : j.field "errors" with
      | none => rfl
      | some v => cases v <;> rfl

/-- C5 counterexample: a 500 response whose body is `{"message": ""}` HAS a
top-level `message` field, so the claim's extraction yields `""`, but the
code's truthiness test skips the empty string and the raised
`SendGridApiError` carries the fallback message `"API error: 500"`;
likewise a body `{"errors": [null]}` has an errors array whose claimed
join is `""`, but `e.message` on the `null` entry throws inside the `try`
and the code again raises the fallback message — refuting the claim as
stated. -/
theorem C5_counterexample :
    apiErrorInfoOf (request ⟨500, none, .json (.obj [("message", .str "")])⟩) =
      some ("API error: 500", 500) ∧
    specGenericMessageClaim 500 (.json (.obj [("message", .str "")])) = "" ∧
    apiErrorInfoOf (request ⟨500, none, .json (.obj [("errors", .arr [.null])])⟩) =
      some ("API error: 500", 500) ∧
    specGenericMessageClaim 500 (.json (.obj [("errors", .arr [.null])])) = "" ∧
    ("API error: 500" ≠ "") := by
  exact ⟨rfl, rfl, rfl, rfl, by decide⟩

/-- C5 (amended): every response with a non-2xx status other than 429, 401
and 403 — and no other response — raises a `SendGridApiError` carrying the
response status and the message computed as the claim states, except that
(a) an errors array containing a `null` entry falls back to
`'API error: <status>'` (the per-entry `message` access throws inside the
`try`), and (b) the top-level `message` field is used only when truthy (a
present but empty/falsy `message` also falls back). -/
theorem C5_generic_api_error_amended (r : HttpResponse) :
    apiErrorInfoOf (request r) =
      if ¬ (200 ≤ r.status ∧ r.status ≤ 299) ∧
          r.status ≠ 429 ∧ r.status ≠ 401 ∧ r.status ≠ 403 then
        some (specGenericMessage r.status r.body, r.status)
      else none := by
  rw [← apiErrorMessage_eq_spec]
  by_cases h1 : r.status = 429
  · simp [request, h1, apiErrorInfoOf]
  · by_cases h2 : r.status = 401 ∨ r.status = 403
    · rcases h2 with h | h <;>
        simp [request, h1, h, apiErrorInfoOf]
    · push_neg at h2
      by_cases h3 : 200 ≤ r.status ∧ r.status ≤ 299
      · by_cases h4 : r.status = 204 ∨ r.status = 202
        · simp [request, h1, h2.1, h2.2, h3, h4, apiErrorInfoOf]
        · cases hb : r.body <;>
            simp [request, h1, h2.1, h2.2, h3, h4, hb, apiErrorInfoOf]
      · simp [request, h1, h2.1, h2.2, h3, apiErrorInfoOf]

/-- C5 witness: the amended statement instantiated at a 500 response whose
body carries an errors array with two entries. -/
theorem C5_generic_api_error_witness :
    apiErrorInfoOf (request ⟨500, none,
      .json (.obj [("errors", .arr [.obj [("message", .str "bad to")],
                                    .obj [("message", .str "bad from")]])])⟩) =
      some ("bad to, bad from", 500) := by
  have h := C5_generic_api_error_amended ⟨500, none,
    .json (.obj [("errors", .arr [.obj [("message", .str "bad to")],
                                  .obj [("message", .str "bad from")]])])⟩
  simpa [specGenericMessage, hasErrorsArray, errorsHasNull, errorsJoin, joinElemStr,
    Json.field, lookupField, Json.jsElemString, Json.isNull] using h

/-- Substring test: the needle occurs contiguously in the haystack. -/
def containsSub (hay needle : String) : Bool :=
  (List.range (hay.length + 1)).any fun i => needle.toList.isPrefixOf (hay.toList.drop i)

/-- C6 counterexample: invoked with neither argument, `sendgrid_delete_blocks`
does reject locally, but its envelope text is built from
`'Either emails or deleteAll required'` and does not contain the message
the claim quotes (`'Either ids/emails or deleteAll must be provided'`),
refuting the claim as stated. -/
theorem C6_counterexample :
    toolDeleteBlocks none none =
      .rejectedLocally
        ⟨jsonStringify2 (.obj [("error", .str "Either emails or deleteAll required")]),
         true⟩ ∧
    containsSub
      (jsonStringify2 (.obj [("error", .str "Either emails or deleteAll required")]))
      "Either ids/emails or deleteAll must be provided" = false := by
  exact ⟨rfl, by decide⟩

/-- C6 (amended): each destructive bulk delete tool invoked with neither the
identifier/email array nor the `deleteAll` flag issues no HTTP request and
returns an `isError` envelope with its own local validation message:
`'Either ids or deleteAll must be provided'` for `sendgrid_delete_contacts`,
`'Either emails or deleteAll must be provided'` for
`sendgrid_delete_bounces`, and `'Either emails or deleteAll required'` for
the blocks, spam-reports and invalid-emails delete tools. -/
theorem C6_bulk_delete_guard_amended :
    toolDeleteContacts none none =
      .rejectedLocally
        ⟨jsonStringify2 (.obj [("error", .str "Either ids or deleteAll must be provided")]),
         true⟩ ∧
    toolDeleteBounces none none =
      .rejectedLocally
        ⟨jsonStringify2 (.obj [("error", .str "Either emails or deleteAll must be provided")]),
         true⟩ ∧
    toolDeleteBlocks none none =
      .rejectedLocally
        ⟨jsonStringify2 (.obj [("error", .str "Either emails or deleteAll required")]),
         true⟩ ∧
    toolDeleteSpamReports none none =
      .rejectedLocally
        ⟨jsonStringify2 (.obj [("error", .str "Either emails or deleteAll required")]),
         true⟩ ∧
    toolDeleteInvalidEmails none none =
      .rejectedLocally
        ⟨jsonStringify2 (.obj [("error", .str "Either emails or deleteAll required")]),
         true⟩ ∧
    containsSub
      (jsonStringify2 (.obj [("error", .str "Either ids or deleteAll must be provided")]))
      "Either ids or deleteAll must be provided" = true := by
  exact ⟨rfl, rfl, rfl, rfl, rfl, by decide⟩

/-- C8: `validateEmail` called without the optional `source` argument sends a
body that is exactly the object `{email}` — no `source` key appears in the
payload at all. -/
theorem C8_validate_email_omits_source (email : String) :
    validateEmailRequest email none =
      { path := "/validations/email", method := "POST",
        body := some (.obj [("email", .str email)]) } := by
  rfl

/-- C9 counterexample: on a 200 response with an EMPTY body, `getScheduledSend`
does not return an undefined result — `result[0]` is evaluated on an
undefined value and throws a `TypeError` — refuting the claim's
parenthetical that an empty-body success also produces `undefined`. -/
theorem C9_counterexample :
    getScheduledSend ⟨200, none, .empty⟩ = .typeError := by
  rfl

/-- C9 (amended): on a success response whose body is the empty JSON array,
`getScheduledSend` returns `undefined` — neither a `ScheduledSend` value
nor an error — because the result is taken by unguarded indexing at
position 0 of the parsed array; a success response with an empty body
instead throws a `TypeError`. -/
theorem C9_scheduled_send_empty_array_amended :
    getScheduledSend ⟨200, none, .json (.arr [])⟩ = .ok none := by
  rfl

/-- C10: `sendgrid_delete_contacts` with `ids = []` (and `deleteAll` absent or
`false`) is NOT rejected by the local guard — an empty array is truthy, so
the guard checks only for a missing argument — and a DELETE request is
issued whose query string carries an empty `ids` parameter. -/
theorem C10_delete_contacts_empty_ids :
    toolDeleteContacts (some []) none =
      .issued { path := "/marketing/contacts?ids=", method := "DELETE", body := none } ∧
    toolDeleteContacts (some []) (some false) =
      .issued { path := "/marketing/contacts?ids=", method := "DELETE", body := none } := by
  exact ⟨rfl, rfl⟩

end SendGrid

